import Mathlib

/-
Verification of the pyspy Electron overlay capture-and-route pipeline.

The definitions below are a shallow embedding of the main-process IPC
handlers of the overlay application:

  * the native-coordinate scaling performed in the close-screenshot
    handler (the screenshot-desktop + sharp variant, the
    node-screenshots variant, and the desktopCapturer variant, which
    differ exactly in their capture backends);
  * the close-screenshot handler's control flow: closing the selection
    window, the null-selection (cancel) branch, the try/catch around the
    capture, showing the main window, and sending the
    screenshot-captured result to the renderer;
  * the start-screenshot handler;
  * the save-screenshot-data and send-adhoc-prompt handlers, modelled
    over an explicit record of the files they touch, with a per-write
    failure oracle standing for fs.writeFileSync throwing.

JavaScript numbers holding logical selection coordinates are modelled as
integers (the renderer reports integer pixel coordinates).  The display
scale factor is an exact fraction num/den (1, 5/4, 3/2, 2, ...);
Math.round, which rounds half toward positive infinity, is implemented
on such products by an exact integer formula and proved equal to
Mathlib's round of the rational product.
-/

namespace PySpy

/-- Selection rectangle in logical pixels, as sent by the renderer of the
selection surface over the close-screenshot IPC channel. -/
structure SelectionRect where
  x : Int
  y : Int
  width : Int
  height : Int
  deriving DecidableEq, Repr

/-- Rectangle in native (physical) pixels, as handed to the crop step. -/
structure PixelRect where
  x : Int
  y : Int
  width : Int
  height : Int
  deriving DecidableEq, Repr

/-- A display scale factor, kept as an exact fraction num / den. -/
structure Scale where
  num : Int
  den : Nat
  deriving DecidableEq, Repr

/-- Display metrics: primaryDisplay.size (logical pixels) and
primaryDisplay.scaleFactor, as read in the close-screenshot handler. -/
structure Display where
  logicalWidth : Int
  logicalHeight : Int
  scaleFactor : Scale
  deriving DecidableEq, Repr

/-- Math.round (a * s.num / s.den): JavaScript Math.round rounds half
toward positive infinity, i.e. Math.round(q) = floor(q + 1/2); on the
product of an integer coordinate with the fraction num/den this is
floor((2 a num + den) / (2 den)), computed here by integer floor
division.  The lemma jsRoundMul_eq_round below proves this equal to
round of the rational product. -/
def jsRoundMul (a : Int) (s : Scale) : Int :=
  Int.fdiv (2 * a * s.num + (s.den : Int)) (2 * (s.den : Int))

/-- The native-coordinate mapping of the close-screenshot handler
(screenshot-desktop + sharp variant):
  nativeX = Math.round(selection.x * scaleFactor)
and likewise for y, width and height.  No clamping is performed. -/
def toNative (sel : SelectionRect) (s : Scale) : PixelRect :=
  { x := jsRoundMul sel.x s
    y := jsRoundMul sel.y s
    width := jsRoundMul sel.width s
    height := jsRoundMul sel.height s }

/-- The native-coordinate mapping of the node-screenshots variant of the
close-screenshot handler: scaleX = capturedWidth / logicalWidth,
scaleY = capturedHeight / logicalHeight, then Math.round of
x * scaleX, y * scaleY, width * scaleX and height * scaleY. -/
def nodeScreenshotsRect (sel : SelectionRect) (capturedWidth capturedHeight : Int)
    (logicalWidth logicalHeight : Nat) : PixelRect :=
  { x := jsRoundMul sel.x ⟨capturedWidth, logicalWidth⟩
    y := jsRoundMul sel.y ⟨capturedHeight, logicalHeight⟩
    width := jsRoundMul sel.width ⟨capturedWidth, logicalWidth⟩
    height := jsRoundMul sel.height ⟨capturedHeight, logicalHeight⟩ }

/-- The crop rectangle used by the desktopCapturer variant of the
close-screenshot handler: the whole-screen thumbnail (requested at
primaryDisplay.size, i.e. logical resolution) is cropped with the raw,
unscaled selection rectangle. -/
def thumbnailCropRect (sel : SelectionRect) : PixelRect :=
  { x := sel.x, y := sel.y, width := sel.width, height := sel.height }

/-- Follows the words of the spec (section 4.1), not the code: clamp the
selection to [0, logicalWidth] x [0, logicalHeight], reject a
non-positive clamped size as InvalidSelection (none), then scale the
clamped rectangle element-wise with rounding.  Present only to compare
the spec's claimed mapping against the one the handler computes. -/
def toNativeRectSpec (sel : SelectionRect) (d : Display) : Option PixelRect :=
  let x1 := max 0 (min sel.x d.logicalWidth)
  let x2 := max 0 (min (sel.x + sel.width) d.logicalWidth)
  let y1 := max 0 (min sel.y d.logicalHeight)
  let y2 := max 0 (min (sel.y + sel.height) d.logicalHeight)
  if x2 - x1 ≤ 0 ∨ y2 - y1 ≤ 0 then none
  else some
    { x := jsRoundMul x1 d.scaleFactor
      y := jsRoundMul y1 d.scaleFactor
      width := jsRoundMul (x2 - x1) d.scaleFactor
      height := jsRoundMul (y2 - y1) d.scaleFactor }

/-- A full-screen frame returned by the capture call (dimensions only;
the crop step needs nothing else). -/
structure Frame where
  width : Int
  height : Int
  deriving DecidableEq, Repr

/-- A cropped image as handed back to the renderer. -/
structure Image where
  width : Int
  height : Int
  deriving DecidableEq, Repr

/-- The precondition of sharp's .extract: it throws (bad extract area)
unless the rectangle is non-degenerate and lies inside the frame. -/
def extractOk (frame : Frame) (r : PixelRect) : Bool :=
  decide (0 ≤ r.x) && decide (0 ≤ r.y) && decide (0 < r.width) && decide (0 < r.height) &&
  decide (r.x + r.width ≤ frame.width) && decide (r.y + r.height ≤ frame.height)

/-- sharp(buffer).extract(rect): the cropped image on a valid extract
area, none when sharp throws. -/
def sharpExtract (frame : Frame) (r : PixelRect) : Option Image :=
  if extractOk frame r then some ⟨r.width, r.height⟩ else none

/-- The crop step of the screenshot-desktop + sharp variant of the
close-screenshot handler: scale the selection with toNative, then
sharp .extract (the subsequent .sharpen and .png steps do not change
the dimensions and do not fail). -/
def sharpCropStep (d : Display) : Frame → SelectionRect → Option Image :=
  fun frame sel => sharpExtract frame (toNative sel d.scaleFactor)

/-- The mutable window state of the main process: the mainWindow
reference (whether it exists and whether it is visible), the
screenshotWindow reference, the set of selection-surface windows that
are actually open (a spawned window stays open until closed, even if the
screenshotWindow reference no longer points at it), and a counter
supplying ids for newly created windows. -/
structure OverlayState where
  mainExists : Bool
  mainVisible : Bool
  screenshotWindow : Option Nat
  openShotWindows : List Nat
  nextId : Nat
  deriving DecidableEq, Repr

/-- The screenshot-captured payload sent to the main window's renderer:
null on cancellation, { dataUrl, selection } on success,
{ dataUrl: null } on a caught capture error. -/
inductive Msg where
  | cancelledNull
  | captured (img : Image) (sel : SelectionRect)
  | failedNull
  deriving DecidableEq, Repr

/-- Observable events of a handler run, in program order. -/
inductive Ev where
  | showMain
  | captureScreen
  | writeFile
  | sendResult (m : Msg)
  deriving DecidableEq, Repr

/-- mainWindow.show() guarded by if (mainWindow). -/
def showMain (st : OverlayState) : OverlayState :=
  if st.mainExists then { st with mainVisible := true } else st

/-- if (screenshotWindow) { screenshotWindow.close(); screenshotWindow = null; } -/
def closeShotWindow (st : OverlayState) : OverlayState :=
  match st.screenshotWindow with
  | none => st
  | some w =>
    { st with screenshotWindow := none, openShotWindows := st.openShotWindows.erase w }

/-- The start-screenshot handler: hide the main window (if it exists),
then unconditionally create a new full-screen selection window and store
it in screenshotWindow, overwriting any previous reference.  There is no
guard against a selection window already being open. -/
def startScreenshot (st : OverlayState) : OverlayState :=
  let st1 := if st.mainExists then { st with mainVisible := false } else st
  { st1 with screenshotWindow := some st1.nextId
             openShotWindows := st1.openShotWindows ++ [st1.nextId]
             nextId := st1.nextId + 1 }

/-- The close-screenshot handler.  Parameters beyond the state: the
selection payload (none models a null selection, i.e. cancellation), the
result of the full-screen capture call (none models the call throwing),
and the crop step of the active backend variant (returning none when the
crop throws).  Returns the final state and the events in program order:
the capture call, then - inside the try on success, or in the catch on
any error - mainWindow.show() followed by the screenshot-captured send.
When mainWindow is null the send itself throws, so no result event is
emitted. -/
def closeScreenshot (st : OverlayState) (selection : Option SelectionRect)
    (capture : Option Frame) (cropStep : Frame → SelectionRect → Option Image) :
    OverlayState × List Ev :=
  let st1 := closeShotWindow st
  match selection with
  | none =>
    let st2 := showMain st1
    if st1.mainExists then (st2, [Ev.showMain, Ev.sendResult Msg.cancelledNull])
    else (st2, [])
  | some sel =>
    match capture with
    | none =>
      let st2 := showMain st1
      if st1.mainExists then (st2, [Ev.captureScreen, Ev.showMain, Ev.sendResult Msg.failedNull])
      else (st2, [Ev.captureScreen])
    | some frame =>
      match cropStep frame sel with
      | some img =>
        let st2 := showMain st1
        if st1.mainExists then
          (st2, [Ev.captureScreen, Ev.showMain, Ev.sendResult (Msg.captured img sel)])
        else (st2, [Ev.captureScreen])
      | none =>
        let st2 := showMain st1
        if st1.mainExists then
          (st2, [Ev.captureScreen, Ev.showMain, Ev.sendResult Msg.failedNull])
        else (st2, [Ev.captureScreen])

/-- Every sendResult event in the list is preceded by an earlier
showMain event; the Boolean argument records whether a showMain has been
seen already. -/
def sendsPrecededByShow : Bool → List Ev → Bool
  | _, [] => true
  | _, Ev.showMain :: r => sendsPrecededByShow true r
  | seen, Ev.sendResult _ :: r => seen && sendsPrecededByShow seen r
  | seen, _ :: r => sendsPrecededByShow seen r

/-- One entry of the .prompt_queue.json array.  The save-screenshot-data
handler pushes { filename, prompt, timestamp, type: screenshot }; the
send-adhoc-prompt handler pushes { prompt, timestamp, type: adhoc }
(no filename). -/
structure QueueItem where
  filename : Option String
  prompt : String
  timestamp : Nat
  kind : String
  deriving DecidableEq, Repr

/-- The single JSON object written to the .command mailbox file;
screenshotPath is present for analyze_screenshot and absent for
analyze_text_prompt. -/
structure CommandData where
  command : String
  prompt : String
  screenshotPath : Option String
  deriving DecidableEq, Repr

/-- The destinations argument { gemini, claude }. -/
structure Dests where
  gemini : Bool
  claude : Bool
  deriving DecidableEq, Repr

/-- The files touched by the save-screenshot-data and send-adhoc-prompt
handlers: the capture PNG, the prompt .txt alongside it, the .command
mailbox, and the .prompt_queue.json array (none models a missing
file). -/
structure SaveFS where
  png : Option String
  txt : Option String
  command : Option CommandData
  queue : Option (List QueueItem)
  deriving DecidableEq, Repr

/-- The handler's IPC return value: { success: true, ... } or
{ success: false, error }. -/
inductive SaveResult where
  | success
  | failure
  deriving DecidableEq, Repr

/-- The write targets of the two handlers; the failure oracle below says
for each target whether fs.writeFileSync throws on it. -/
inductive WriteTarget where
  | png
  | txt
  | command
  | queue
  deriving DecidableEq, Repr

/-- JavaScript truthiness of the promptText argument: undefined, null
and the empty string are falsy. -/
def jsTruthy : Option String → Bool
  | none => false
  | some s => !(s == "")

/-- The queue append shared by save-screenshot-data and
send-adhoc-prompt: read the current array (a missing file is treated as
the empty array), push the item, and write the whole array back. -/
def enqueue (stored : Option (List QueueItem)) (item : QueueItem) : List QueueItem :=
  let queue := match stored with
    | none => []
    | some xs => xs
  queue ++ [item]

/-- The save-screenshot-data handler (screenshot-desktop + sharp
variant).  data is the decoded image buffer; fileName and filePath the
timestamp-keyed capture name and its full path; fail the per-target
write-failure oracle.  The whole body sits in one try/catch: the first
throwing write makes the handler return { success: false } with every
earlier write already on disk and no later write attempted.  Directory
creation (mkdirSync) touches none of the modelled files and is
omitted. -/
def saveScreenshotData (fs : SaveFS) (fail : WriteTarget → Bool) (data : String)
    (promptText : Option String) (destinations : Option Dests)
    (fileName filePath : String) (now : Nat) : SaveFS × SaveResult :=
  let dests := destinations.getD ⟨true, true⟩
  if fail WriteTarget.png then (fs, SaveResult.failure) else
  let fs1 := { fs with png := some data }
  if jsTruthy promptText then
    let p := promptText.getD ""
    if fail WriteTarget.txt then (fs1, SaveResult.failure) else
    let fs2 := { fs1 with txt := some p }
    if dests.gemini && fail WriteTarget.command then (fs2, SaveResult.failure) else
    let fs3 :=
      if dests.gemini then
        { fs2 with command := some ⟨"analyze_screenshot", p, some filePath⟩ }
      else fs2
    if dests.claude && fail WriteTarget.queue then (fs3, SaveResult.failure) else
    let fs4 :=
      if dests.claude then
        { fs3 with queue := some (enqueue fs3.queue ⟨some fileName, p, now, "screenshot"⟩) }
      else fs3
    (fs4, SaveResult.success)
  else
    (fs1, SaveResult.success)

/-- The send-adhoc-prompt handler: the .command write for gemini and the
queue append for claude, in one try/catch, no screenshot involved. -/
def sendAdhocPrompt (fs : SaveFS) (fail : WriteTarget → Bool) (promptText : String)
    (destinations : Option Dests) (now : Nat) : SaveFS × SaveResult :=
  let dests := destinations.getD ⟨true, true⟩
  if dests.gemini && fail WriteTarget.command then (fs, SaveResult.failure) else
  let fs1 :=
    if dests.gemini then
      { fs with command := some ⟨"analyze_text_prompt", promptText, none⟩ }
    else fs
  if dests.claude && fail WriteTarget.queue then (fs1, SaveResult.failure) else
  let fs2 :=
    if dests.claude then
      { fs1 with queue := some (enqueue fs1.queue ⟨none, promptText, now, "adhoc"⟩) }
    else fs1
  (fs2, SaveResult.success)

/-- jsRoundMul implements JavaScript Math.round of the product of an
integer coordinate with the scale fraction: it equals Mathlib's round
(round half up) of the rational product. -/
theorem jsRoundMul_eq_round (a : Int) (s : Scale) (h : 0 < s.den) :
    jsRoundMul a s = round ((a : ℚ) * ((s.num : ℚ) / (s.den : ℚ))) := by
  have hd : ((s.den : ℚ)) ≠ 0 := by positivity
  rw [round_eq]
  have key : (a : ℚ) * ((s.num : ℚ) / (s.den : ℚ)) + 1 / 2 =
      (((2 * a * s.num + (s.den : Int) : Int) : ℚ)) / (((2 * s.den : Nat) : ℚ)) := by
    push_cast
    field_simp
    ring
  rw [key, Rat.floor_intCast_div_natCast, jsRoundMul, Int.fdiv_eq_ediv _ (by positivity)]
  push_cast
  rfl

/-- Two scale fractions that represent the same ratio give the same
rounded products. -/
theorem jsRoundMul_congr (a cw : Int) (lw : Nat) (s : Scale) (hlw : 0 < lw)
    (hden : 0 < s.den) (hcross : cw * (s.den : Int) = s.num * (lw : Int)) :
    jsRoundMul a ⟨cw, lw⟩ = jsRoundMul a s := by
  rw [jsRoundMul_eq_round a ⟨cw, lw⟩ hlw, jsRoundMul_eq_round a s hden]
  have h1 : ((lw : ℚ)) ≠ 0 := by positivity
  have h2 : ((s.den : ℚ)) ≠ 0 := by positivity
  have hq : ((cw : ℚ)) / ((lw : ℚ)) = ((s.num : ℚ)) / ((s.den : ℚ)) := by
    rw [div_eq_div_iff h1 h2]
    exact_mod_cast hcross
  rw [hq]

theorem closeShotWindow_mainExists (st : OverlayState) :
    (closeShotWindow st).mainExists = st.mainExists := by
  cases h : st.screenshotWindow <;> simp [closeShotWindow, h]

theorem closeShotWindow_mainVisible (st : OverlayState) :
    (closeShotWindow st).mainVisible = st.mainVisible := by
  cases h : st.screenshotWindow <;> simp [closeShotWindow, h]

theorem closeShotWindow_screenshotWindow_none (st : OverlayState) :
    (closeShotWindow st).screenshotWindow = none := by
  cases h : st.screenshotWindow <;> simp [closeShotWindow, h]

theorem showMain_mainVisible (st : OverlayState) (h : st.mainExists = true) :
    (showMain st).mainVisible = true := by
  simp [showMain, h]

theorem showMain_screenshotWindow (st : OverlayState) :
    (showMain st).screenshotWindow = st.screenshotWindow := by
  by_cases h : st.mainExists <;> simp [showMain, h]

theorem foldl_enqueue (l items : List QueueItem) :
    List.foldl (fun acc it => enqueue (some acc) it) l items = l ++ items := by
  induction items generalizing l with
  | nil => simp
  | cons a tl ih =>
    simp only [List.foldl_cons]
    rw [show enqueue (some l) a = l ++ [a] from rfl, ih]
    simp

/-- C5: for every selection rectangle and scale factor the mapped native
pixel rect is round(selection * scaleFactor) element-wise on x, y,
width and height; in particular the selection
{x:100, y:50, width:300, height:200} at scaleFactor 3/2 maps to the
pixel rect {150, 75, 450, 300}. -/
theorem c5_toNative_is_round :
    (∀ (sel : SelectionRect) (s : Scale), 0 < s.den →
      toNative sel s =
        ⟨round ((sel.x : ℚ) * ((s.num : ℚ) / (s.den : ℚ))),
         round ((sel.y : ℚ) * ((s.num : ℚ) / (s.den : ℚ))),
         round ((sel.width : ℚ) * ((s.num : ℚ) / (s.den : ℚ))),
         round ((sel.height : ℚ) * ((s.num : ℚ) / (s.den : ℚ)))⟩) ∧
    toNative ⟨100, 50, 300, 200⟩ ⟨3, 2⟩ = ⟨150, 75, 450, 300⟩ := by
  constructor
  · intro sel s h
    rw [toNative, jsRoundMul_eq_round sel.x s h, jsRoundMul_eq_round sel.y s h,
      jsRoundMul_eq_round sel.width s h, jsRoundMul_eq_round sel.height s h]
  · decide

/-- C5 witness: the general part of c5_toNative_is_round applied at the
selection {7, 8, 9, 10} and scale factor 5/4. -/
theorem c5_toNative_is_round_witness :
    toNative ⟨7, 8, 9, 10⟩ ⟨5, 4⟩ =
      ⟨round (((7 : Int) : ℚ) * (((5 : Int) : ℚ) / ((4 : Nat) : ℚ))),
       round (((8 : Int) : ℚ) * (((5 : Int) : ℚ) / ((4 : Nat) : ℚ))),
       round (((9 : Int) : ℚ) * (((5 : Int) : ℚ) / ((4 : Nat) : ℚ))),
       round (((10 : Int) : ℚ) * (((5 : Int) : ℚ) / ((4 : Nat) : ℚ)))⟩ :=
  c5_toNative_is_round.1 ⟨7, 8, 9, 10⟩ ⟨5, 4⟩ (by decide)

/-- C2 counterexample: the claim says a selection fully outside the
display is clamped, yields InvalidSelection, and no capture or crop is
attempted.  On the selection {-200, -200, 50, 50} over a 1920x1080
display at scale 1 the spec-worded mapping indeed yields
InvalidSelection (none), but the handler performs the full-screen
capture anyway (captureScreen is in its event trace), and the mapping
the code computes is the unclamped rect {-200, -200, 50, 50}. -/
theorem c2_counterexample :
    toNativeRectSpec ⟨-200, -200, 50, 50⟩ ⟨1920, 1080, ⟨1, 1⟩⟩ = none ∧
    Ev.captureScreen ∈
      (closeScreenshot ⟨true, true, some 0, [0], 1⟩ (some ⟨-200, -200, 50, 50⟩)
        (some ⟨1920, 1080⟩) (sharpCropStep ⟨1920, 1080, ⟨1, 1⟩⟩)).2 ∧
    toNative ⟨-200, -200, 50, 50⟩ ⟨1, 1⟩ = ⟨-200, -200, 50, 50⟩ := by
  decide

/-- C2 amended: the close-screenshot handler performs no clamping and
has no InvalidSelection result.  It always invokes the full-screen
capture first, for every selection; it maps the raw selection by
round(selection * scaleFactor); and when the resulting rect is invalid
for the crop (out of the frame or non-positive), the crop throws, is
caught, and the handler reports a null-dataUrl failure after restoring
the main window. -/
theorem c2_amended_no_clamp_capture_first :
    ∀ (st : OverlayState) (sel : SelectionRect) (d : Display) (cap : Option Frame)
      (frame : Frame),
    st.mainExists = true →
    (Ev.captureScreen ∈ (closeScreenshot st (some sel) cap (sharpCropStep d)).2) ∧
    (extractOk frame (toNative sel d.scaleFactor) = false →
      (closeScreenshot st (some sel) (some frame) (sharpCropStep d)).2 =
        [Ev.captureScreen, Ev.showMain, Ev.sendResult Msg.failedNull] ∧
      (closeScreenshot st (some sel) (some frame) (sharpCropStep d)).1.mainVisible = true) := by
  intro st sel d cap frame h
  have h1 : (closeShotWindow st).mainExists = true := by
    rw [closeShotWindow_mainExists, h]
  constructor
  · cases cap with
    | none => simp [closeScreenshot, h1]
    | some fr =>
      cases hc : sharpCropStep d fr sel with
      | none => simp [closeScreenshot, hc, h1]
      | some img => simp [closeScreenshot, hc, h1]
  · intro hex
    have hc : sharpCropStep d frame sel = none := by
      simp [sharpCropStep, sharpExtract, hex]
    constructor
    · simp [closeScreenshot, hc, h1]
    · simp [closeScreenshot, hc, h1, showMain_mainVisible _ h1]

/-- C2 amended witness: c2_amended_no_clamp_capture_first at the fully
out-of-bounds selection {-200, -200, 50, 50} on a 1920x1080 display at
scale 1, with the inner crop-failure hypothesis also discharged. -/
theorem c2_amended_no_clamp_capture_first_witness :
    (Ev.captureScreen ∈
      (closeScreenshot ⟨true, true, some 0, [0], 1⟩ (some ⟨-200, -200, 50, 50⟩)
        (some ⟨1920, 1080⟩) (sharpCropStep ⟨1920, 1080, ⟨1, 1⟩⟩)).2) ∧
    ((closeScreenshot ⟨true, true, some 0, [0], 1⟩ (some ⟨-200, -200, 50, 50⟩)
        (some ⟨1920, 1080⟩) (sharpCropStep ⟨1920, 1080, ⟨1, 1⟩⟩)).2 =
      [Ev.captureScreen, Ev.showMain, Ev.sendResult Msg.failedNull] ∧
     (closeScreenshot ⟨true, true, some 0, [0], 1⟩ (some ⟨-200, -200, 50, 50⟩)
        (some ⟨1920, 1080⟩) (sharpCropStep ⟨1920, 1080, ⟨1, 1⟩⟩)).1.mainVisible = true) := by
  have h := c2_amended_no_clamp_capture_first ⟨true, true, some 0, [0], 1⟩
    ⟨-200, -200, 50, 50⟩ ⟨1920, 1080, ⟨1, 1⟩⟩ (some ⟨1920, 1080⟩) ⟨1920, 1080⟩ rfl
  exact ⟨h.1, h.2 (by decide)⟩

/-- C8 counterexample: the claim says all three backends produce
pixel-identical crops of the same native pixel rect.  For the selection
{100, 50, 300, 200} on a 1920x1080 display at scale 3/2 (native
2880x1620), the node-screenshots and the screenshot-desktop + sharp
backends both crop the native rect {150, 75, 450, 300}, but the
desktopCapturer backend crops the raw rect {100, 50, 300, 200} from a
logical-resolution thumbnail: a 300x200 image instead of a 450x300 one,
so the crops are not pixel-identical and the backend choice is
observable. -/
theorem c8_counterexample :
    nodeScreenshotsRect ⟨100, 50, 300, 200⟩ 2880 1620 1920 1080 = ⟨150, 75, 450, 300⟩ ∧
    toNative ⟨100, 50, 300, 200⟩ ⟨3, 2⟩ = ⟨150, 75, 450, 300⟩ ∧
    thumbnailCropRect ⟨100, 50, 300, 200⟩ = ⟨100, 50, 300, 200⟩ ∧
    thumbnailCropRect ⟨100, 50, 300, 200⟩ ≠ toNative ⟨100, 50, 300, 200⟩ ⟨3, 2⟩ := by
  decide

/-- C8 amended: the two native-resolution backends (node-screenshots
and screenshot-desktop + sharp) compute the same native crop rect for
the same selection whenever the captured frame dimensions stand in the
exact scaleFactor ratio to the logical dimensions; the desktopCapturer
backend crops the raw, unscaled selection from a logical-resolution
thumbnail, so whenever scaling changes the width its crop differs from
the native backends' crop and the backend choice is observable to the
caller. -/
theorem c8_amended_native_backends_agree :
    ∀ (sel : SelectionRect) (cw ch : Int) (lw lh : Nat) (s : Scale),
    0 < lw → 0 < lh → 0 < s.den →
    cw * (s.den : Int) = s.num * (lw : Int) →
    ch * (s.den : Int) = s.num * (lh : Int) →
    nodeScreenshotsRect sel cw ch lw lh = toNative sel s ∧
    (jsRoundMul sel.width s ≠ sel.width →
      thumbnailCropRect sel ≠ toNative sel s) := by
  intro sel cw ch lw lh s hlw hlh hden hw hh
  constructor
  · rw [nodeScreenshotsRect, toNative,
      jsRoundMul_congr sel.x cw lw s hlw hden hw,
      jsRoundMul_congr sel.y ch lh s hlh hden hh,
      jsRoundMul_congr sel.width cw lw s hlw hden hw,
      jsRoundMul_congr sel.height ch lh s hlh hden hh]
  · intro hne heq
    apply hne
    have := congrArg PixelRect.width heq
    simpa [thumbnailCropRect, toNative] using this.symm

/-- C8 amended witness: c8_amended_native_backends_agree at the
selection {100, 50, 300, 200}, captured 2880x1620, logical 1920x1080,
scale 3/2, with the width-changes hypothesis also discharged. -/
theorem c8_amended_native_backends_agree_witness :
    nodeScreenshotsRect ⟨100, 50, 300, 200⟩ 2880 1620 1920 1080 =
      toNative ⟨100, 50, 300, 200⟩ ⟨3, 2⟩ ∧
    thumbnailCropRect ⟨100, 50, 300, 200⟩ ≠ toNative ⟨100, 50, 300, 200⟩ ⟨3, 2⟩ := by
  have h := c8_amended_native_backends_agree ⟨100, 50, 300, 200⟩ 2880 1620 1920 1080 ⟨3, 2⟩
    (by decide) (by decide) (by decide) (by decide) (by decide)
  exact ⟨h.1, h.2 (by decide)⟩

/-- C1: on every completion of the close-screenshot handler - successful
capture, capture or crop failure, or cancellation (null selection) -
the main window ends visible, a result is delivered to the pending
listener, and the showMain event precedes every sendResult event in the
trace, for every initial state in which the main window exists and for
every backend crop step. -/
theorem c1_close_restores_main_before_result :
    ∀ (st : OverlayState) (selection : Option SelectionRect) (cap : Option Frame)
      (cropStep : Frame → SelectionRect → Option Image),
    st.mainExists = true →
    (closeScreenshot st selection cap cropStep).1.mainVisible = true ∧
    sendsPrecededByShow false (closeScreenshot st selection cap cropStep).2 = true ∧
    (∃ m, Ev.sendResult m ∈ (closeScreenshot st selection cap cropStep).2) := by
  intro st selection cap cropStep h
  have h1 : (closeShotWindow st).mainExists = true := by
    rw [closeShotWindow_mainExists, h]
  cases selection with
  | none =>
    refine ⟨?_, ?_, ⟨Msg.cancelledNull, ?_⟩⟩ <;>
      simp [closeScreenshot, h1, showMain_mainVisible _ h1, sendsPrecededByShow]
  | some sel =>
    cases cap with
    | none =>
      refine ⟨?_, ?_, ⟨Msg.failedNull, ?_⟩⟩ <;>
        simp [closeScreenshot, h1, showMain_mainVisible _ h1, sendsPrecededByShow]
    | some frame =>
      cases hc : cropStep frame sel with
      | none =>
        refine ⟨?_, ?_, ⟨Msg.failedNull, ?_⟩⟩ <;>
          simp [closeScreenshot, hc, h1, showMain_mainVisible _ h1, sendsPrecededByShow]
      | some img =>
        refine ⟨?_, ?_, ⟨Msg.captured img sel, ?_⟩⟩ <;>
          simp [closeScreenshot, hc, h1, showMain_mainVisible _ h1, sendsPrecededByShow]

/-- C1 witness: c1_close_restores_main_before_result at a concrete state
with the main window existing, a concrete selection, frame and the
sharp crop step. -/
theorem c1_close_restores_main_before_result_witness :
    (closeScreenshot ⟨true, true, some 0, [0], 1⟩ (some ⟨1, 2, 3, 4⟩) (some ⟨1920, 1080⟩)
      (sharpCropStep ⟨1920, 1080, ⟨2, 1⟩⟩)).1.mainVisible = true ∧
    sendsPrecededByShow false
      (closeScreenshot ⟨true, true, some 0, [0], 1⟩ (some ⟨1, 2, 3, 4⟩) (some ⟨1920, 1080⟩)
        (sharpCropStep ⟨1920, 1080, ⟨2, 1⟩⟩)).2 = true ∧
    (∃ m, Ev.sendResult m ∈
      (closeScreenshot ⟨true, true, some 0, [0], 1⟩ (some ⟨1, 2, 3, 4⟩) (some ⟨1920, 1080⟩)
        (sharpCropStep ⟨1920, 1080, ⟨2, 1⟩⟩)).2) :=
  c1_close_restores_main_before_result ⟨true, true, some 0, [0], 1⟩ (some ⟨1, 2, 3, 4⟩)
    (some ⟨1920, 1080⟩) (sharpCropStep ⟨1920, 1080, ⟨2, 1⟩⟩) rfl

/-- C6: when the selection is null (user cancelled), the handler's
whole trace is showMain followed by the explicit null notification to
the pending listener: no capture is performed, no file is written, the
selection window reference is cleared, and the main window ends
visible. -/
theorem c6_cancel_no_capture_no_files :
    ∀ (st : OverlayState) (cap : Option Frame)
      (cropStep : Frame → SelectionRect → Option Image),
    st.mainExists = true →
    (closeScreenshot st none cap cropStep).2 =
      [Ev.showMain, Ev.sendResult Msg.cancelledNull] ∧
    (closeScreenshot st none cap cropStep).1.mainVisible = true ∧
    (closeScreenshot st none cap cropStep).1.screenshotWindow = none ∧
    Ev.captureScreen ∉ (closeScreenshot st none cap cropStep).2 ∧
    Ev.writeFile ∉ (closeScreenshot st none cap cropStep).2 := by
  intro st cap cropStep h
  have h1 : (closeShotWindow st).mainExists = true := by
    rw [closeShotWindow_mainExists, h]
  refine ⟨?_, ?_, ?_, ?_, ?_⟩ <;>
    simp [closeScreenshot, h1, showMain_mainVisible _ h1, showMain_screenshotWindow,
      closeShotWindow_screenshotWindow_none]

/-- C6 witness: c6_cancel_no_capture_no_files at a concrete state with
an open selection window and the sharp crop step. -/
theorem c6_cancel_no_capture_no_files_witness :
    (closeScreenshot ⟨true, false, some 0, [0], 1⟩ none (some ⟨1920, 1080⟩)
      (sharpCropStep ⟨1920, 1080, ⟨1, 1⟩⟩)).2 =
      [Ev.showMain, Ev.sendResult Msg.cancelledNull] ∧
    (closeScreenshot ⟨true, false, some 0, [0], 1⟩ none (some ⟨1920, 1080⟩)
      (sharpCropStep ⟨1920, 1080, ⟨1, 1⟩⟩)).1.mainVisible = true ∧
    (closeScreenshot ⟨true, false, some 0, [0], 1⟩ none (some ⟨1920, 1080⟩)
      (sharpCropStep ⟨1920, 1080, ⟨1, 1⟩⟩)).1.screenshotWindow = none ∧
    Ev.captureScreen ∉ (closeScreenshot ⟨true, false, some 0, [0], 1⟩ none (some ⟨1920, 1080⟩)
      (sharpCropStep ⟨1920, 1080, ⟨1, 1⟩⟩)).2 ∧
    Ev.writeFile ∉ (closeScreenshot ⟨true, false, some 0, [0], 1⟩ none (some ⟨1920, 1080⟩)
      (sharpCropStep ⟨1920, 1080, ⟨1, 1⟩⟩)).2 :=
  c6_cancel_no_capture_no_files ⟨true, false, some 0, [0], 1⟩ (some ⟨1920, 1080⟩)
    (sharpCropStep ⟨1920, 1080, ⟨1, 1⟩⟩) rfl

/-- C9 counterexample: the claim says invoking start-screenshot while a
selection surface is already active is a no-op.  Starting from a fresh
state, one invocation opens selection window 0; a second invocation is
not a no-op: it changes the state again, leaves two selection windows
open ([0, 1]), and repoints the reference at the new window 1. -/
theorem c9_counterexample :
    startScreenshot (startScreenshot ⟨true, true, none, [], 0⟩) ≠
      startScreenshot ⟨true, true, none, [], 0⟩ ∧
    (startScreenshot ⟨true, true, none, [], 0⟩).screenshotWindow = some 0 ∧
    (startScreenshot (startScreenshot ⟨true, true, none, [], 0⟩)).openShotWindows = [0, 1] ∧
    (startScreenshot (startScreenshot ⟨true, true, none, [], 0⟩)).screenshotWindow = some 1 := by
  decide

/-- C9 amended: start-screenshot has no reentrancy guard.  Whenever the
main window exists - including while a selection surface is already
active - it hides the main window (again) and unconditionally spawns a
new selection window, appending it to the open windows and overwriting
the stored reference, so the previously open surface stays open but
unreferenced. -/
theorem c9_amended_no_reentrancy_guard :
    ∀ st : OverlayState, st.mainExists = true →
    (startScreenshot st).mainVisible = false ∧
    (startScreenshot st).screenshotWindow = some st.nextId ∧
    (startScreenshot st).openShotWindows = st.openShotWindows ++ [st.nextId] ∧
    (startScreenshot st).nextId = st.nextId + 1 := by
  intro st h
  refine ⟨?_, ?_, ?_, ?_⟩ <;> simp [startScreenshot, h]

/-- C9 amended witness: c9_amended_no_reentrancy_guard at a state in
which selection window 0 is already active. -/
theorem c9_amended_no_reentrancy_guard_witness :
    (startScreenshot ⟨true, false, some 0, [0], 1⟩).mainVisible = false ∧
    (startScreenshot ⟨true, false, some 0, [0], 1⟩).screenshotWindow = some 1 ∧
    (startScreenshot ⟨true, false, some 0, [0], 1⟩).openShotWindows = [0] ++ [1] ∧
    (startScreenshot ⟨true, false, some 0, [0], 1⟩).nextId = 1 + 1 :=
  c9_amended_no_reentrancy_guard ⟨true, false, some 0, [0], 1⟩ rfl

/-- C3 counterexample: the claim says a disk-write failure during
persistence leaves zero persisted artifacts and no routing write in
effect.  Starting from an empty file system with the queue write
failing, the handler returns failure, yet the PNG, the prompt .txt and
the .command routing write all remain on disk - nothing is cleaned
up. -/
theorem c3_counterexample :
    saveScreenshotData ⟨none, none, none, none⟩
        (fun t => match t with | WriteTarget.queue => true | _ => false)
        "img" (some "p") none "f.png" "sdir/f.png" 0 =
      (⟨some "img", some "p", some ⟨"analyze_screenshot", "p", some "sdir/f.png"⟩, none⟩,
        SaveResult.failure) ∧
    (saveScreenshotData ⟨none, none, none, none⟩
        (fun t => match t with | WriteTarget.queue => true | _ => false)
        "img" (some "p") none "f.png" "sdir/f.png" 0).1.png ≠ none ∧
    (saveScreenshotData ⟨none, none, none, none⟩
        (fun t => match t with | WriteTarget.queue => true | _ => false)
        "img" (some "p") none "f.png" "sdir/f.png" 0).1.command ≠ none := by
  decide

/-- C3 amended: when a disk write fails during persistence or routing
the handler returns failure and attempts no later write, but performs no
cleanup: every file written before the failing write remains.  In
particular, when the queue write fails after the earlier writes
succeeded, the PNG, the prompt .txt, and (when gemini is targeted) the
.command mailbox write all persist, and the queue file is unchanged. -/
theorem c3_amended_failure_keeps_earlier_writes :
    ∀ (fs : SaveFS) (fail : WriteTarget → Bool) (data : String) (p : Option String)
      (dest : Option Dests) (fn fp : String) (now : Nat),
    fail WriteTarget.png = false → fail WriteTarget.txt = false →
    fail WriteTarget.command = false → fail WriteTarget.queue = true →
    jsTruthy p = true → (dest.getD ⟨true, true⟩).claude = true →
    saveScreenshotData fs fail data p dest fn fp now =
      ({ fs with png := some data, txt := some (p.getD ""),
                 command :=
                   if (dest.getD ⟨true, true⟩).gemini then
                     some ⟨"analyze_screenshot", p.getD "", some fp⟩
                   else fs.command },
        SaveResult.failure) := by
  intro fs fail data p dest fn fp now h1 h2 h3 h4 h5 h6
  rw [saveScreenshotData]
  simp only [h1, h2, h3, h4, h5, h6, Bool.and_false, Bool.and_true, if_false, if_true,
    Bool.false_eq_true, Bool.true_and]
  cases hg : (dest.getD ⟨true, true⟩).gemini <;> simp [hg]

/-- C3 amended witness: c3_amended_failure_keeps_earlier_writes on an
empty file system with only the queue write failing. -/
theorem c3_amended_failure_keeps_earlier_writes_witness :
    saveScreenshotData ⟨none, none, none, none⟩
        (fun t => match t with | WriteTarget.queue => true | _ => false)
        "img" (some "p") none "f.png" "sdir/f.png" 0 =
      ({ (⟨none, none, none, none⟩ : SaveFS) with
          png := some "img", txt := some ((some "p").getD ""),
          command :=
            if ((none : Option Dests).getD ⟨true, true⟩).gemini then
              some ⟨"analyze_screenshot", (some "p").getD "", some "sdir/f.png"⟩
            else (⟨none, none, none, none⟩ : SaveFS).command },
        SaveResult.failure) :=
  c3_amended_failure_keeps_earlier_writes ⟨none, none, none, none⟩
    (fun t => match t with | WriteTarget.queue => true | _ => false)
    "img" (some "p") none "f.png" "sdir/f.png" 0 rfl rfl rfl rfl rfl rfl

/-- C4 counterexample: the claim says the failure of one sink does not
prevent the write to the other and that push=failure, pull=success is a
reachable outcome.  With both destinations enabled and the .command
(push) write failing, the handler aborts in the shared catch: it returns
a single overall failure, and the queue (pull) file is never written, so
the pull item is absent. -/
theorem c4_counterexample :
    saveScreenshotData ⟨none, none, none, none⟩
        (fun t => match t with | WriteTarget.command => true | _ => false)
        "img" (some "p") (some ⟨true, true⟩) "f.png" "sdir/f.png" 0 =
      (⟨some "img", some "p", none, none⟩, SaveResult.failure) ∧
    (saveScreenshotData ⟨none, none, none, none⟩
        (fun t => match t with | WriteTarget.command => true | _ => false)
        "img" (some "p") (some ⟨true, true⟩) "f.png" "sdir/f.png" 0).1.queue = none := by
  decide

/-- C4 amended: routing failures are not isolated per sink.  The
.command (push) and queue (pull) writes sit in the same try/catch, so
with both destinations enabled, a failure writing the .command mailbox
makes the handler return a single overall failure before the queue
append is attempted: the pull sink's file is untouched, and the result
records no per-sink outcomes. -/
theorem c4_amended_push_failure_blocks_pull :
    ∀ (fs : SaveFS) (fail : WriteTarget → Bool) (data : String) (p : Option String)
      (fn fp : String) (now : Nat),
    fail WriteTarget.png = false → fail WriteTarget.txt = false →
    fail WriteTarget.command = true → jsTruthy p = true →
    saveScreenshotData fs fail data p (some ⟨true, true⟩) fn fp now =
      ({ fs with png := some data, txt := some (p.getD "") }, SaveResult.failure) ∧
    (saveScreenshotData fs fail data p (some ⟨true, true⟩) fn fp now).1.queue = fs.queue := by
  intro fs fail data p fn fp now h1 h2 h3 h4
  have key : saveScreenshotData fs fail data p (some ⟨true, true⟩) fn fp now =
      ({ fs with png := some data, txt := some (p.getD "") }, SaveResult.failure) := by
    rw [saveScreenshotData]
    simp [h1, h2, h3, h4]
  exact ⟨key, by rw [key]⟩

/-- C4 amended witness: c4_amended_push_failure_blocks_pull on an empty
file system with only the .command write failing. -/
theorem c4_amended_push_failure_blocks_pull_witness :
    saveScreenshotData ⟨none, none, none, none⟩
        (fun t => match t with | WriteTarget.command => true | _ => false)
        "img" (some "p") (some ⟨true, true⟩) "f.png" "sdir/f.png" 0 =
      ({ (⟨none, none, none, none⟩ : SaveFS) with
          png := some "img", txt := some ((some "p").getD "") }, SaveResult.failure) ∧
    (saveScreenshotData ⟨none, none, none, none⟩
        (fun t => match t with | WriteTarget.command => true | _ => false)
        "img" (some "p") (some ⟨true, true⟩) "f.png" "sdir/f.png" 0).1.queue =
      (⟨none, none, none, none⟩ : SaveFS).queue :=
  c4_amended_push_failure_blocks_pull ⟨none, none, none, none⟩
    (fun t => match t with | WriteTarget.command => true | _ => false)
    "img" (some "p") "f.png" "sdir/f.png" 0 rfl rfl rfl rfl

/-- C10: when promptText is absent (null or the empty string, both
falsy in JavaScript) and the PNG write succeeds, the handler writes only
the PNG: the prompt .txt, the .command mailbox and the queue file are
untouched, for every destinations argument. -/
theorem c10_no_prompt_writes_only_png :
    ∀ (fs : SaveFS) (fail : WriteTarget → Bool) (data : String) (p : Option String)
      (dest : Option Dests) (fn fp : String) (now : Nat),
    jsTruthy p = false → fail WriteTarget.png = false →
    saveScreenshotData fs fail data p dest fn fp now =
      ({ fs with png := some data }, SaveResult.success) := by
  intro fs fail data p dest fn fp now h1 h2
  rw [saveScreenshotData]
  simp [h1, h2]

/-- C10 witness: c10_no_prompt_writes_only_png with an empty-string
prompt (falsy) and both destinations enabled. -/
theorem c10_no_prompt_writes_only_png_witness :
    saveScreenshotData ⟨none, none, some ⟨"analyze_text_prompt", "old", none⟩, some []⟩
        (fun _ => false) "img" (some "") (some ⟨true, true⟩) "f.png" "sdir/f.png" 0 =
      ({ (⟨none, none, some ⟨"analyze_text_prompt", "old", none⟩, some []⟩ : SaveFS) with
          png := some "img" }, SaveResult.success) :=
  c10_no_prompt_writes_only_png
    ⟨none, none, some ⟨"analyze_text_prompt", "old", none⟩, some []⟩
    (fun _ => false) "img" (some "") (some ⟨true, true⟩) "f.png" "sdir/f.png" 0 rfl rfl

/-- C7: the queue append used by both the save-screenshot-data and
send-adhoc-prompt handlers leaves the file containing exactly the
previous array (a missing file read as empty) with the new item at the
end: the old array is an unchanged initial segment, the appended item is
the sole remainder, and folding repeated enqueues over any item list
appends them in order - strict FIFO insertion. -/
theorem c7_enqueue_appends_preserving_order :
    ∀ (stored : Option (List QueueItem)) (item : QueueItem) (items : List QueueItem),
    enqueue stored item = stored.getD [] ++ [item] ∧
    (enqueue stored item).take (stored.getD []).length = stored.getD [] ∧
    (enqueue stored item).drop (stored.getD []).length = [item] ∧
    List.foldl (fun acc it => enqueue (some acc) it) (stored.getD []) items =
      stored.getD [] ++ items := by
  intro stored item items
  have h0 : enqueue stored item = stored.getD [] ++ [item] := by
    cases stored <;> rfl
  refine ⟨h0, ?_, ?_, foldl_enqueue _ _⟩
  · rw [h0, List.take_left]
  · rw [h0, List.drop_left]

end PySpy

